import Mathlib

/-!
Verification of the JanVedha-AI decision pipeline
(backend/app/services/ai/: priority_agent.py, classifier_agent.py,
memory_agent.py, seasonal_predictor.py, pipeline.py).

The Python code is shallowly embedded: pure functions become Lean
functions; Python floats become exact rationals (all values produced by
the scoring code are integers or one-decimal rationals, where binary
floating point and exact rational arithmetic agree, including rounding
to two decimals); stateful/IO parts (the LightGBM classifier, MongoDB
stores, Prophet) are passed explicitly as state values or oracle
functions.
-/

namespace JanVedha

/-! ### Character / substring helpers shared by several agents

Python substring membership (the `in` operator on str) and `str.lower`
(the inputs exercised here are ASCII or caseless scripts, on which
ASCII lowercasing agrees with Python's Unicode lowercasing). -/

/-- Whether the first list of characters is a literal prefix of the second. -/
def isPrefixList : List Char → List Char → Bool
  | [], _ => true
  | _ :: _, [] => false
  | a :: pa, b :: tb => a == b && isPrefixList pa tb

/-- Whether `pat` occurs as a contiguous substring: Python `pat in text`. -/
def containsSub (pat : List Char) : List Char → Bool
  | [] => pat.isEmpty
  | c :: t => isPrefixList pat (c :: t) || containsSub pat t

/-- Python `str.lower()` restricted to ASCII letters, as a character list. -/
def lowerStr (s : String) : List Char :=
  s.data.map Char.toLower

/-! ### priority_agent.py — rule engine -/

/-- Priority labels, the codomain of `_score_to_label` and of the
classifier's `LABEL_REVERSE` mapping. -/
inductive PLabel
  | LOW
  | MEDIUM
  | HIGH
  | CRITICAL
deriving DecidableEq

/-- `SEVERITY_MAP` from priority_agent.py, as an association list. -/
def SEVERITY_MAP : List (String × ℤ) :=
  [("street_light_out", 15), ("multiple_lights_out", 22),
   ("electrical_spark_hazard", 30), ("electrical_hazard", 30),
   ("small_pothole", 12), ("large_pothole", 20), ("pothole", 16),
   ("road_collapse", 28), ("bridge_crack", 30),
   ("low_pressure", 14), ("no_water_supply", 22), ("water", 16),
   ("dirty_water", 25), ("burst_pipe_flooding", 30),
   ("drain_blocked", 18), ("sewage_overflow", 26), ("open_manhole", 30), ("sewage", 20),
   ("missed_collection_once", 10), ("overflowing_bin", 16), ("garbage", 14),
   ("dead_animal_carcass", 22), ("illegal_dumping_large", 20),
   ("mosquito_breeding", 18), ("stray_dog_bite", 28), ("stray", 18),
   ("disease_outbreak_concern", 30), ("flood", 28), ("flooding", 28),
   ("fire", 30), ("accident", 28), ("collapse", 28),
   ("default", 15)]

/-- `SAFETY_KEYWORDS` from priority_agent.py. -/
def SAFETY_KEYWORDS : List String :=
  ["accident", "danger", "hazard", "fire", "electric shock",
   "child fell", "injury", "death", "hospital", "emergency",
   "flood", "collapse", "snake", "rabies", "epidemic",
   "விபத்து", "ஆபத்து", "आग", "खतरा", "ప్రమాదం"]

/-- Python `dict.get(k, dflt)` on an association list (dict keys are unique,
so first-match lookup coincides with dict lookup). -/
def assocGet (k : String) (dflt : ℤ) : List (String × ℤ) → ℤ
  | [] => dflt
  | (a, v) :: t => if k = a then v else assocGet k dflt t

/-- The base severity for a category: `SEVERITY_MAP.get(cat, SEVERITY_MAP["default"])`. -/
def severityBase (issue_category : String) : ℤ :=
  assocGet issue_category (assocGet "default" 15 SEVERITY_MAP) SEVERITY_MAP

/-- `any(kw.lower() in description.lower() for kw in SAFETY_KEYWORDS)`. -/
def safetyHit (description : String) : Bool :=
  SAFETY_KEYWORDS.any fun kw => containsSub (lowerStr kw) (lowerStr description)

/-- `location_scores` local dict of `_rule_score`. -/
def locationScores : List (String × ℤ) :=
  [("main_road", 10), ("hospital_vicinity", 10), ("school_vicinity", 9),
   ("market", 8), ("residential", 5), ("internal_street", 3), ("unknown", 4)]

/-- The `time_score` if-chain of `_rule_score`. -/
def timeScore (days_open : ℤ) : ℤ :=
  if days_open ≤ 1 then 0
  else if days_open ≤ 3 then 5
  else if days_open ≤ 7 then 10
  else if days_open ≤ 14 then 15
  else 20

/-- The `sla_score` if-chain of `_rule_score`. -/
def slaScore (hours_until_sla_breach : ℚ) : ℤ :=
  if hours_until_sla_breach ≤ 0 then 15
  else if hours_until_sla_breach ≤ 6 then 12
  else if hours_until_sla_breach ≤ 24 then 8
  else if hours_until_sla_breach ≤ 48 then 4
  else 0

/-- The `social_score` if-chain of `_rule_score`. -/
def socialScore (social_media_mentions : ℤ) : ℤ :=
  if 100 < social_media_mentions then 10
  else if 50 < social_media_mentions then 7
  else if 10 < social_media_mentions then 4
  else 0

/-- The integer sum of the five factors of `_rule_score`, before the
final `min(100.0, ...)` clamp. -/
def ruleScoreInt (issue_category : String) (report_count : ℤ) (location_type : String)
    (days_open : ℤ) (hours_until_sla_breach : ℚ) (social_media_mentions : ℤ)
    (description : String) : ℤ :=
  let base := severityBase issue_category
  let safety_bonus : ℤ := if safetyHit description then 5 else 0
  let severity := min 30 (base + safety_bonus)
  let impact := min 15 (report_count * 3) + assocGet location_type 4 locationScores
  severity + impact + timeScore days_open + slaScore hours_until_sla_breach +
    socialScore social_media_mentions

/-- `_rule_score` from priority_agent.py (the trailing `month` parameter is
unused by the source, too). -/
def rule_score (issue_category : String) (report_count : ℤ) (location_type : String)
    (days_open : ℤ) (hours_until_sla_breach : ℚ) (social_media_mentions : ℤ)
    (description : String) (_month : ℤ) : ℚ :=
  min (100 : ℚ)
    ((ruleScoreInt issue_category report_count location_type days_open
        hours_until_sla_breach social_media_mentions description : ℤ) : ℚ)

/-- `_score_to_label` from priority_agent.py. -/
def scoreToLabel (score : ℚ) : PLabel :=
  if 80 ≤ score then PLabel.CRITICAL
  else if 60 ≤ score then PLabel.HIGH
  else if 35 ≤ score then PLabel.MEDIUM
  else PLabel.LOW

/-- Rounding to the nearest integer with ties to even (the rounding mode of
Python's `round`). -/
def bround (s : ℚ) : ℤ :=
  if s - (Int.floor s : ℚ) < 1 / 2 then Int.floor s
  else if 1 / 2 < s - (Int.floor s : ℚ) then Int.floor s + 1
  else if Int.floor s % 2 = 0 then Int.floor s else Int.floor s + 1

/-- Python `round(q, 2)` (banker's rounding at the hundredths place).  All
scores rounded by the source are integers or one-decimal values, on which
the binary-float round and this exact rational round agree. -/
def round2 (q : ℚ) : ℚ :=
  ((bround (q * 100) : ℤ) : ℚ) / 100

/-! ### priority_agent.py — feature engineering -/

/-- `DEPT_IDS` from priority_agent.py. -/
def DEPT_IDS : List String :=
  ["D01", "D02", "D03", "D04", "D05", "D06", "D07",
   "D08", "D09", "D10", "D11", "D12", "D13", "D14"]

/-- `_build_feature_vector` from priority_agent.py. -/
def build_feature_vector (issue_category : String) (report_count : ℤ) (days_open : ℤ)
    (social_media_mentions : ℤ) (hours_until_sla_breach : ℚ) (month : ℤ)
    (description : String) (dept_id : String) (ward_id : ℤ) (day_of_week : ℤ)
    (hour_of_day : ℤ) : List ℚ :=
  let severity_base := severityBase issue_category
  let safety_flag : ℚ := if safetyHit description then 1 else 0
  let is_weekend : ℚ := if 5 ≤ day_of_week then 1 else 0
  let is_monsoon : ℚ := if month = 6 ∨ month = 7 ∨ month = 8 ∨ month = 9 then 1 else 0
  let dept_onehot : List ℚ := DEPT_IDS.map fun d => if dept_id = d then 1 else 0
  [(severity_base : ℚ),
   ((min report_count 20 : ℤ) : ℚ),
   ((min days_open 60 : ℤ) : ℚ),
   ((min social_media_mentions 200 : ℤ) : ℚ),
   max 0 hours_until_sla_breach,
   safety_flag,
   (month : ℚ), (day_of_week : ℚ), (hour_of_day : ℚ),
   is_weekend, is_monsoon, (ward_id : ℚ)] ++ dept_onehot

/-! ### priority_agent.py — ML model state and hybrid scorer -/

/-- The in-memory state of `_PriorityMLModel` relevant to prediction: the
loaded classifier (`None` until one is trained/loaded; modelled abstractly
as a function from a feature vector to an optional label, `none` also
covering a prediction-time exception) and the cumulative confirmed
training-sample count. -/
structure MLState where
  clf : Option (List ℚ → Option PLabel)
  sample_count : ℕ

/-- `_PriorityMLModel.MIN_SAMPLES_TO_USE`. -/
def MIN_SAMPLES_TO_USE : ℕ := 50

/-- `_PriorityMLModel.predict`: `None` when no classifier is loaded or the
sample count is below the activation threshold. -/
def predict (st : MLState) (features : List ℚ) : Option PLabel :=
  match st.clf with
  | none => none
  | some f => if st.sample_count < MIN_SAMPLES_TO_USE then none else f features

/-- The `ml_score_map` of `calculate_priority` (its `.get(_, 50)` default is
unreachable because `predict` only produces these four labels). -/
def mlScoreMap : PLabel → ℚ
  | PLabel.LOW => 20
  | PLabel.MEDIUM => 50
  | PLabel.HIGH => 70
  | PLabel.CRITICAL => 90

/-- `calculate_priority` from priority_agent.py: hybrid rule + ML scoring,
returning `(score, label, source)`. -/
def calculate_priority (st : MLState) (issue_category : String) (description : String)
    (dept_id : String) (report_count : ℤ) (location_type : String) (days_open : ℤ)
    (hours_until_sla_breach : ℚ) (social_media_mentions : ℤ) (month : ℤ)
    (ward_id : ℤ) (day_of_week : ℤ) (hour_of_day : ℤ) : ℚ × PLabel × String :=
  match predict st (build_feature_vector issue_category report_count days_open
      social_media_mentions hours_until_sla_breach month description dept_id
      ward_id day_of_week hour_of_day) with
  | none =>
    (round2 (rule_score issue_category report_count location_type days_open
        hours_until_sla_breach social_media_mentions description month),
      scoreToLabel (rule_score issue_category report_count location_type days_open
        hours_until_sla_breach social_media_mentions description month),
      "rules")
  | some ml_label =>
    if |rule_score issue_category report_count location_type days_open
        hours_until_sla_breach social_media_mentions description month -
          mlScoreMap ml_label| ≤ 20 then
      (round2 (rule_score issue_category report_count location_type days_open
          hours_until_sla_breach social_media_mentions description month),
        scoreToLabel (rule_score issue_category report_count location_type days_open
          hours_until_sla_breach social_media_mentions description month),
        "hybrid")
    else
      (round2 (0.60 * rule_score issue_category report_count location_type days_open
          hours_until_sla_breach social_media_mentions description month +
          0.40 * mlScoreMap ml_label),
        scoreToLabel (round2 (0.60 * rule_score issue_category report_count location_type days_open
          hours_until_sla_breach social_media_mentions description month +
          0.40 * mlScoreMap ml_label)),
        "hybrid")

/-- The description of the spec's end-to-end rule-engine scenario (§8). -/
def c4_description : String :=
  "Large pothole on Anna Salai causing accidents near school, multiple people reported"

/-! ### classifier_agent.py — department catalogue and classification -/

/-- One department of `DEPARTMENT_CATALOGUE`. -/
structure Department where
  id : String
  name : String
  keywords : List String
deriving DecidableEq

/-- `DEPARTMENT_CATALOGUE` from classifier_agent.py, in dict insertion
order. -/
def DEPARTMENT_CATALOGUE : List Department :=
  [⟨"D01", "Roads & Bridges", ["pothole", "road", "bridge", "footpath", "pavement", "crack", "speed breaker"]⟩,
   ⟨"D02", "Buildings & Planning", ["construction", "illegal", "encroachment", "building", "permit"]⟩,
   ⟨"D03", "Water Supply", ["water", "supply", "pipe", "leak", "low pressure", "no water", "dirty water"]⟩,
   ⟨"D04", "Sewage & Drainage", ["sewage", "drain", "blocked", "overflow", "manhole", "stench"]⟩,
   ⟨"D05", "Solid Waste Management", ["garbage", "waste", "bin", "collection", "dumping", "litter", "trash"]⟩,
   ⟨"D06", "Street Lighting", ["light", "lamp", "dark", "street light", "electricity", "bulb"]⟩,
   ⟨"D07", "Parks & Greenery", ["park", "tree", "garden", "grass", "playground", "fallen tree"]⟩,
   ⟨"D08", "Health & Sanitation", ["mosquito", "dengue", "fever", "epidemic", "stray", "dog", "bite", "dead animal"]⟩,
   ⟨"D09", "Fire & Emergency", ["fire", "accident", "emergency", "explosion", "hazard", "collapse"]⟩,
   ⟨"D10", "Traffic & Transport", ["traffic", "signal", "bus", "road block", "parking", "vehicle"]⟩,
   ⟨"D11", "Revenue & Property", ["tax", "property", "document", "certificate"]⟩,
   ⟨"D12", "Social Welfare", ["pension", "welfare", "disability", "ration", "subsidy"]⟩,
   ⟨"D13", "Education", ["school", "teacher", "education", "college", "student"]⟩,
   ⟨"D14", "Disaster Management", ["flood", "cyclone", "landslide", "tsunami", "disaster", "relief"]⟩]

/-- The dataclass `ClassificationResult` from classifier_agent.py. -/
structure ClassificationResult where
  dept_id : String
  dept_name : String
  issue_category : String
  issue_summary : String
  location_extracted : String
  language_detected : String
  confidence : ℚ
  needs_clarification : Bool
  clarification_question : Option String
  requires_human_review : Bool
deriving DecidableEq

/-- The per-department hit count of `_keyword_fallback`:
`sum(1 for kw in info["keywords"] if kw in text_lower)` (keywords are
stored lowercase and are matched against the lowered description). -/
def deptScore (d : Department) (text_lower : List Char) : ℕ :=
  (d.keywords.filter fun kw => containsSub kw.data text_lower).length

/-- The best-department fold of `_keyword_fallback`: starting from
`best_dept = "D05", best_score = 0`, each department replaces the running
best only when its score is strictly greater. -/
def pickBest : (String × ℕ) → List (String × ℕ) → String × ℕ
  | acc, [] => acc
  | acc, p :: rest => pickBest (if acc.2 < p.2 then p else acc) rest

/-- The (department id, score) pair `_keyword_fallback` settles on. -/
def bestMatch (text_lower : List Char) : String × ℕ :=
  pickBest ("D05", 0) (DEPARTMENT_CATALOGUE.map fun d => (d.id, deptScore d text_lower))

/-- `DEPARTMENT_CATALOGUE[dept_id]["name"]` (every id produced by
`bestMatch` is a key of the catalogue). -/
def deptNameOf (dept_id : String) : String :=
  ((DEPARTMENT_CATALOGUE.find? fun d => d.id == dept_id).map Department.name).getD ""

/-- `_keyword_fallback` from classifier_agent.py. -/
def keyword_fallback (text : String) : ClassificationResult :=
  { dept_id := (bestMatch (lowerStr text)).1
    dept_name := deptNameOf (bestMatch (lowerStr text)).1
    issue_category := "general_complaint"
    issue_summary := String.mk (text.data.take 200)
    location_extracted := "Unknown"
    language_detected := "en"
    confidence := if 0 < (bestMatch (lowerStr text)).2 then 0.6 else 0.4
    needs_clarification := (bestMatch (lowerStr text)).2 = 0
    clarification_question :=
      if (bestMatch (lowerStr text)).2 = 0 then
        some "Could you describe the issue in more detail?"
      else none
    requires_human_review := true }

/-- The JSON object parsed from the language model's reply in
`classify_complaint` (each `data.get(...)` is an optional field). -/
structure LLMClassification where
  dept_id : Option String
  dept_name : Option String
  issue_category : Option String
  issue_summary : Option String
  location_extracted : Option String
  language_detected : Option String
  confidence : Option ℚ
  needs_clarification : Option Bool
  clarification_question : Option String
  requires_human_review : Option Bool
deriving DecidableEq

/-- The `ClassificationResult(...)` construction of `classify_complaint`'s
successful path, with the source's per-field defaults. -/
def resultFromLLM (description : String) (data : LLMClassification) : ClassificationResult :=
  { dept_id := data.dept_id.getD "D05"
    dept_name := data.dept_name.getD "Solid Waste Management"
    issue_category := data.issue_category.getD "general_complaint"
    issue_summary := data.issue_summary.getD (String.mk (description.data.take 200))
    location_extracted := data.location_extracted.getD "Unknown"
    language_detected := data.language_detected.getD "en"
    confidence := data.confidence.getD 0.75
    needs_clarification := data.needs_clarification.getD false
    clarification_question := data.clarification_question
    requires_human_review := data.requires_human_review.getD false }

/-- `classify_complaint` from classifier_agent.py.  `llm_response = some d`
models a backend reply that parsed as JSON `d`; `none` models a failed,
timed-out, or unparsable call, which falls back to keyword matching. -/
def classify_complaint (llm_response : Option LLMClassification)
    (description : String) : ClassificationResult :=
  match llm_response with
  | some data => resultFromLLM description data
  | none => keyword_fallback description

/-- A syntactically valid language-model reply asserting low confidence
while leaving the review flag false. -/
def c3_llm_reply : LLMClassification :=
  { dept_id := some "D01", dept_name := some "Roads & Bridges",
    issue_category := some "pothole", issue_summary := some "Pothole reported",
    location_extracted := some "Unknown", language_detected := some "en",
    confidence := some 0.5, needs_clarification := some false,
    clarification_question := none, requires_human_review := some false }

/-! ### memory_agent.py — recurrence / seasonal memory -/

/-- The `IssueMemoryMongo` document (timestamps are not modelled). -/
structure IssueMemoryRecord where
  ward_id : ℤ
  issue_category : String
  dept_id : String
  month : ℤ
  year : ℤ
  occurrence_count : ℕ
  avg_severity_score : ℚ
  keywords : List String
  sample_ticket_ids : List String
  last_seen_description : String
deriving DecidableEq

/-- The `recurring_categories` set of `_should_check_memory`. -/
def recurringCategories : List String :=
  ["flood", "flooding", "pothole", "sewage_overflow", "dirty_water",
   "mosquito_breeding", "garbage", "drain_blocked", "road_collapse"]

/-- `_should_check_memory` from memory_agent.py. -/
def shouldCheckMemory (priority_label : PLabel) (issue_category : String) : Bool :=
  if priority_label = PLabel.CRITICAL ∨ priority_label = PLabel.HIGH then true
  else recurringCategories.any fun cat => containsSub cat.data (lowerStr issue_category)

/-- Keyword extraction for a fresh memory record: alphabetic tokens longer
than 4 characters, case-folded, deduplicated (Python materialises a set;
its iteration order is modelled as first-occurrence order), capped to
10. -/
def extractKeywords (description : String) : List String :=
  ((((description.split Char.isWhitespace).filter fun w =>
      decide (4 < w.length) && w.data.all Char.isAlpha).map fun w =>
      String.mk (lowerStr w)).eraseDups).take 10

/-- Python `l[-n:]`: the last `n` elements. -/
def takeLast (n : ℕ) (l : List String) : List String :=
  l.drop (l.length - n)

/-- The upsert step of `check_and_update_memory`: on an existing record for
the same (ward, category, month, year) it increments the occurrence count,
merges the severity by running average (the source computes
`prev_total = avg * (count - 1)` after incrementing the count), appends the
ticket reference capped to the 5 most recent, and refreshes the snippet;
otherwise it creates a fresh record with count 1. -/
def upsertMemory (existing : Option IssueMemoryRecord) (ward_id : ℤ)
    (issue_category dept_id : String) (priority_score : ℚ)
    (description ticket_id : String) (month year : ℤ) : IssueMemoryRecord :=
  match existing with
  | some e =>
    { e with
      occurrence_count := e.occurrence_count + 1
      avg_severity_score :=
        (e.avg_severity_score * (((e.occurrence_count + 1 : ℕ) : ℚ) - 1) + priority_score) /
          ((e.occurrence_count + 1 : ℕ) : ℚ)
      sample_ticket_ids :=
        if ticket_id ∈ e.sample_ticket_ids then e.sample_ticket_ids
        else takeLast 5 (e.sample_ticket_ids ++ [ticket_id])
      last_seen_description := String.mk (description.data.take 300) }
  | none =>
    { ward_id := ward_id
      issue_category := issue_category
      dept_id := dept_id
      month := month
      year := year
      occurrence_count := 1
      avg_severity_score := priority_score
      keywords := extractKeywords description
      sample_ticket_ids := [ticket_id]
      last_seen_description := String.mk (description.data.take 300) }

/-- The prior-year query predicate of `check_and_update_memory`. -/
def memMatchPast (ward_id : ℤ) (issue_category : String) (month year : ℤ)
    (r : IssueMemoryRecord) : Bool :=
  decide (r.ward_id = ward_id ∧ r.issue_category = issue_category ∧
    r.month = month ∧ r.year < year)

/-- The current-year `find_one` predicate of `check_and_update_memory`. -/
def memMatchCurrent (ward_id : ℤ) (issue_category : String) (month year : ℤ)
    (r : IssueMemoryRecord) : Bool :=
  decide (r.ward_id = ward_id ∧ r.issue_category = issue_category ∧
    r.month = month ∧ r.year = year)

/-- Saving a modified document: replace the first record matching the
predicate. -/
def updateFirst (p : IssueMemoryRecord → Bool) (f : IssueMemoryRecord → IssueMemoryRecord) :
    List IssueMemoryRecord → List IssueMemoryRecord
  | [] => []
  | r :: t => if p r then f r :: t else r :: updateFirst p f t

/-- `check_and_update_memory` from memory_agent.py over an explicit record
store.  `alertGen` abstracts `_generate_alert_text` (language model with a
fixed template fallback); it receives ward, category, month, summed
prior-year occurrences, and their average severity. -/
def check_and_update_memory (store : List IssueMemoryRecord) (ward_id : Option ℤ)
    (issue_category dept_id : String) (priority_label : PLabel) (priority_score : ℚ)
    (description ticket_id : String) (nowMonth nowYear : ℤ)
    (alertGen : ℤ → String → ℤ → ℕ → ℚ → String) :
    List IssueMemoryRecord × Option String :=
  match ward_id with
  | none => (store, none)
  | some w =>
    if shouldCheckMemory priority_label issue_category then
      ((match store.find? (memMatchCurrent w issue_category nowMonth nowYear) with
        | some _ =>
          updateFirst (memMatchCurrent w issue_category nowMonth nowYear)
            (fun r => upsertMemory (some r) w issue_category dept_id priority_score
              description ticket_id nowMonth nowYear) store
        | none =>
          store ++ [upsertMemory none w issue_category dept_id priority_score
            description ticket_id nowMonth nowYear]),
       (if 1 ≤ (store.filter (memMatchPast w issue_category nowMonth nowYear)).length then
          if 2 ≤ ((store.filter (memMatchPast w issue_category nowMonth nowYear)).map
              IssueMemoryRecord.occurrence_count).sum then
            some (alertGen w issue_category nowMonth
              ((store.filter (memMatchPast w issue_category nowMonth nowYear)).map
                IssueMemoryRecord.occurrence_count).sum
              (((store.filter (memMatchPast w issue_category nowMonth nowYear)).map
                IssueMemoryRecord.avg_severity_score).sum /
                ((store.filter (memMatchPast w issue_category nowMonth nowYear)).length : ℚ)))
          else none
        else none))
    else (store, none)

/-! ### routing_agent.py -/

/-- The dataclass `RoutingResult`. -/
structure RoutingResult where
  dept_id : String
  dept_name : String
  routing_confirmed : Bool
  routing_reason : String
  escalation_required : Bool
  escalation_reason : Option String
deriving DecidableEq

/-- The JSON object parsed from the routing model's reply. -/
structure LLMRouting where
  dept_id : Option String
  dept_name : Option String
  routing_confirmed : Option Bool
  routing_reason : Option String
  escalation_required : Option Bool
  escalation_reason : Option String
deriving DecidableEq

/-- `route_complaint` from routing_agent.py; `none` models a failed call,
which accepts the classifier's department unchanged. -/
def route_complaint (llm_response : Option LLMRouting)
    (classification : ClassificationResult) : RoutingResult :=
  match llm_response with
  | some data =>
    { dept_id := data.dept_id.getD classification.dept_id
      dept_name := data.dept_name.getD classification.dept_name
      routing_confirmed := data.routing_confirmed.getD true
      routing_reason := data.routing_reason.getD "Routing confirmed by AI."
      escalation_required := data.escalation_required.getD false
      escalation_reason := data.escalation_reason }
  | none =>
    { dept_id := classification.dept_id
      dept_name := classification.dept_name
      routing_confirmed := true
      routing_reason := "Routing accepted from classifier (routing agent unavailable)."
      escalation_required := false
      escalation_reason := none }

/-! ### pipeline.py — orchestrator -/

/-- The dataclass `AIPipelineResult`. -/
structure AIPipelineResult where
  dept_id : String
  dept_name : String
  issue_category : String
  issue_summary : String
  location_extracted : String
  language_detected : String
  ai_confidence : ℚ
  needs_clarification : Bool
  clarification_question : Option String
  requires_human_review : Bool
  routing_reason : String
  escalation_required : Bool
  escalation_reason : Option String
  priority_score : ℚ
  priority_label : PLabel
  priority_source : String
  suggestions : List String
  seasonal_alert : Option String
deriving DecidableEq

/-- Python `s or dflt` for an optional string (empty strings are falsy). -/
def pyOrStr (s : Option String) (dflt : String) : String :=
  match s with
  | none => dflt
  | some t => if t = "" then dflt else t

/-- Python truthiness of the optional ward number: `if ward_id` is false
for `None` and for ward 0. -/
def truthyWard : Option ℤ → Bool
  | none => false
  | some w => decide (w ≠ 0)

/-- `run_pipeline` from pipeline.py.  The language-model backends, the
suggestion list, and the alert-text generator are oracle inputs; the
memory store is threaded explicitly and returned alongside the result. -/
def run_pipeline (classifier_llm : Option LLMClassification)
    (routing_llm : Option LLMRouting) (ml : MLState) (suggestions : List String)
    (memStore : List IssueMemoryRecord) (alertGen : ℤ → String → ℤ → ℕ → ℚ → String)
    (nowMonth nowYear : ℤ) (description : String)
    (_location_text _photo_url : Option String)
    (ward_id : Option ℤ) (ticket_id : Option String) :
    AIPipelineResult × List IssueMemoryRecord :=
  let classification := classify_complaint classifier_llm description
  let routing := route_complaint routing_llm classification
  let pr := calculate_priority ml classification.issue_category description routing.dept_id
    1 "unknown" 0 168.0 0 nowMonth 0 0 12
  let memOut :=
    if truthyWard ward_id then
      check_and_update_memory memStore (some ((ward_id.getD 0)))
        classification.issue_category routing.dept_id pr.2.1 pr.1 description
        (pyOrStr ticket_id "pending") nowMonth nowYear alertGen
    else (memStore, none)
  ({ dept_id := routing.dept_id
     dept_name := routing.dept_name
     issue_category := classification.issue_category
     issue_summary := classification.issue_summary
     location_extracted := classification.location_extracted
     language_detected := classification.language_detected
     ai_confidence := classification.confidence
     needs_clarification := classification.needs_clarification
     clarification_question := classification.clarification_question
     requires_human_review := classification.requires_human_review
     routing_reason := routing.routing_reason
     escalation_required := routing.escalation_required
     escalation_reason := routing.escalation_reason
     priority_score := pr.1
     priority_label := pr.2.1
     priority_source := pr.2.2
     suggestions := suggestions
     seasonal_alert := if truthyWard ward_id then memOut.2 else none },
   memOut.1)

/-! ### seasonal_predictor.py — spike forecasting -/

/-- A historical ticket as seen by `_load_daily_counts`: only its creation
day matters (`none` models a missing `created_at`); days are integers. -/
structure TicketDoc where
  created_at : Option ℤ
deriving DecidableEq

/-- `MIN_DATA_POINTS` from seasonal_predictor.py. -/
def MIN_DATA_POINTS : ℕ := 90

/-- `SPIKE_THRESHOLD` from seasonal_predictor.py. -/
def SPIKE_THRESHOLD : ℚ := 1.5

/-- A fitted Prophet model, abstracted as the `yhat` series its forecast
produces for a given horizon (history rows followed by horizon rows). -/
structure ProphetModel where
  forecastYhat : ℕ → List ℚ

/-- One cached entry of `self._models`. -/
structure CacheEntry where
  model : ProphetModel
  df_len : ℕ

/-- `self._model_key`: `f"{ward_id}_{category.lower()}"`. -/
def modelKey (ward_id : ℤ) (category : String) : String :=
  toString ward_id ++ "_" ++ String.mk (lowerStr category)

/-- The daily count series: distinct days from min to max with per-day
ticket counts, missing days filled as zero. -/
def groupDaily (dates : List ℤ) : List (ℤ × ℕ) :=
  match dates.min?, dates.max? with
  | some lo, some hi =>
    (List.range (hi - lo + 1).toNat).map fun i =>
      (lo + (i : ℤ), (dates.filter fun d => d == lo + (i : ℤ)).length)
  | _, _ => []

/-- `_load_daily_counts`: `None` when there are no tickets or fewer dated
tickets than `MIN_DATA_POINTS`. -/
def load_daily_counts (tickets : List TicketDoc) : Option (List (ℤ × ℕ)) :=
  if tickets.isEmpty then none
  else if (tickets.filterMap TicketDoc.created_at).length < MIN_DATA_POINTS then none
  else some (groupDaily (tickets.filterMap TicketDoc.created_at))

/-- `_train`: `none` when Prophet is unavailable, the data is insufficient,
or fitting fails (`fitOracle` abstracts `Prophet.fit`). -/
def trainModel (prophetInstalled : Bool)
    (fitOracle : List (ℤ × ℕ) → Option ProphetModel)
    (tickets : List TicketDoc) : Option CacheEntry :=
  if prophetInstalled then
    match load_daily_counts tickets with
    | none => none
    | some df =>
      match fitOracle df with
      | none => none
      | some m => some ⟨m, df.length⟩
  else none

/-- A spike alert (the formatted message string is omitted; `int(...)`
truncations of the nonnegative quantities are floors). -/
structure SpikeAlert where
  ward_id : ℤ
  category : String
  horizon_days : ℕ
  predicted_count : ℤ
  historical_avg_count : ℤ
  spike_ratio_rounded : ℚ
deriving DecidableEq

/-- The forecast-analysis tail of `predict_spike`: clip the `yhat` series
at zero, sum the final horizon, average the history, and alert only when
the predicted volume reaches `SPIKE_THRESHOLD` times the historical
per-horizon average. -/
def predictFromEntry (entry : CacheEntry) (ward_id : ℤ) (category : String)
    (horizon_days : ℕ) : Option SpikeAlert :=
  if ((((entry.model.forecastYhat horizon_days).take
        ((entry.model.forecastYhat horizon_days).length - horizon_days)).map
        fun x => max 0 x).sum /
      ((((entry.model.forecastYhat horizon_days).take
        ((entry.model.forecastYhat horizon_days).length - horizon_days)).length : ℚ)) *
      (horizon_days : ℚ)) ≤ 0 then none
  else if SPIKE_THRESHOLD ≤
      ((((entry.model.forecastYhat horizon_days).drop
          ((entry.model.forecastYhat horizon_days).length - horizon_days)).map
          fun x => max 0 x).sum /
        (((((entry.model.forecastYhat horizon_days).take
          ((entry.model.forecastYhat horizon_days).length - horizon_days)).map
          fun x => max 0 x).sum /
          ((((entry.model.forecastYhat horizon_days).take
            ((entry.model.forecastYhat horizon_days).length - horizon_days)).length : ℚ)) *
          (horizon_days : ℚ)))) then
    some
      { ward_id := ward_id
        category := category
        horizon_days := horizon_days
        predicted_count := Int.floor ((((entry.model.forecastYhat horizon_days).drop
          ((entry.model.forecastYhat horizon_days).length - horizon_days)).map
          fun x => max 0 x).sum)
        historical_avg_count := Int.floor (((((entry.model.forecastYhat horizon_days).take
          ((entry.model.forecastYhat horizon_days).length - horizon_days)).map
          fun x => max 0 x).sum /
          ((((entry.model.forecastYhat horizon_days).take
            ((entry.model.forecastYhat horizon_days).length - horizon_days)).length : ℚ)) *
          (horizon_days : ℚ)))
        spike_ratio_rounded := round2 ((((entry.model.forecastYhat horizon_days).drop
          ((entry.model.forecastYhat horizon_days).length - horizon_days)).map
          fun x => max 0 x).sum /
          (((((entry.model.forecastYhat horizon_days).take
            ((entry.model.forecastYhat horizon_days).length - horizon_days)).map
            fun x => max 0 x).sum /
            ((((entry.model.forecastYhat horizon_days).take
              ((entry.model.forecastYhat horizon_days).length - horizon_days)).length : ℚ)) *
            (horizon_days : ℚ)))) }
  else none

/-- Python dict assignment `self._models[key] = entry`. -/
def dictSet (key : String) (entry : CacheEntry) :
    List (String × CacheEntry) → List (String × CacheEntry)
  | [] => [(key, entry)]
  | (k, v) :: t => if k = key then (key, entry) :: t else (k, v) :: dictSet key entry t

/-- `predict_spike` from seasonal_predictor.py.  The cache (`models`),
last-training times (`last_trained`, in days; a missing key models
`datetime.min`, which always counts as stale), and the current day (`now`)
are explicit; the returned pair is the alert (or `none`) and the updated
cache. -/
def predict_spike (models : List (String × CacheEntry))
    (last_trained : List (String × ℤ)) (now : ℤ) (prophetInstalled : Bool)
    (fitOracle : List (ℤ × ℕ) → Option ProphetModel) (tickets : List TicketDoc)
    (ward_id : ℤ) (category : String) (horizon_days : ℕ) :
    Option SpikeAlert × List (String × CacheEntry) :=
  if (List.lookup (modelKey ward_id category) models).isNone ||
      (match List.lookup (modelKey ward_id category) last_trained with
       | none => true
       | some t => decide (7 ≤ now - t)) then
    match trainModel prophetInstalled fitOracle tickets with
    | none => (none, models)
    | some entry =>
      (predictFromEntry entry ward_id category horizon_days,
        dictSet (modelKey ward_id category) entry models)
  else
    match List.lookup (modelKey ward_id category) models with
    | none => (none, models)
    | some entry => (predictFromEntry entry ward_id category horizon_days, models)

/-! ### Helper lemmas for the priority scorer -/

/-- `predict` yields no label when no classifier is loaded or the sample
count is below the activation threshold. -/
theorem predict_eq_none (st : MLState) (features : List ℚ)
    (h : st.clf = none ∨ st.sample_count < MIN_SAMPLES_TO_USE) :
    predict st features = none := by
  rcases h with h | h
  · simp [predict, h]
  · unfold predict
    rcases st.clf with _ | f
    · rfl
    · simp [h]

/-- `calculate_priority` reduced on the rules-only branch. -/
theorem calcPriority_rules_branch (st : MLState) (issue_category description dept_id : String)
    (report_count : ℤ) (location_type : String) (days_open : ℤ)
    (hours_until_sla_breach : ℚ) (social_media_mentions : ℤ) (month ward_id day_of_week hour_of_day : ℤ)
    (h : predict st (build_feature_vector issue_category report_count days_open
      social_media_mentions hours_until_sla_breach month description dept_id
      ward_id day_of_week hour_of_day) = none) :
    calculate_priority st issue_category description dept_id report_count location_type
      days_open hours_until_sla_breach social_media_mentions month ward_id day_of_week hour_of_day =
    (round2 (rule_score issue_category report_count location_type days_open
        hours_until_sla_breach social_media_mentions description month),
      scoreToLabel (rule_score issue_category report_count location_type days_open
        hours_until_sla_breach social_media_mentions description month),
      "rules") := by
  unfold calculate_priority
  rw [h]

/-- `bround` is the identity on integers. -/
theorem bround_intCast (n : ℤ) : bround ((n : ℤ) : ℚ) = n := by
  unfold bround
  rw [Int.floor_intCast]
  simp only [sub_self]
  rw [if_pos (by norm_num)]

/-- `round2` is the identity on integers. -/
theorem round2_intCast (n : ℤ) : round2 ((n : ℤ) : ℚ) = (n : ℚ) := by
  unfold round2
  have h100 : ((n : ℤ) : ℚ) * 100 = ((n * 100 : ℤ) : ℚ) := by push_cast; ring
  rw [h100, bround_intCast]
  push_cast
  field_simp

/-- `rule_score` takes integer values (the clamp of an integer sum). -/
theorem rule_score_eq_intCast (issue_category : String) (report_count : ℤ)
    (location_type : String) (days_open : ℤ) (hours_until_sla_breach : ℚ)
    (social_media_mentions : ℤ) (description : String) (month : ℤ) :
    rule_score issue_category report_count location_type days_open
      hours_until_sla_breach social_media_mentions description month =
    ((min 100 (ruleScoreInt issue_category report_count location_type days_open
        hours_until_sla_breach social_media_mentions description) : ℤ) : ℚ) := by
  rw [rule_score]
  norm_cast

/-- Rounding `rule_score` to two decimals returns it unchanged. -/
theorem round2_rule_score (issue_category : String) (report_count : ℤ)
    (location_type : String) (days_open : ℤ) (hours_until_sla_breach : ℚ)
    (social_media_mentions : ℤ) (description : String) (month : ℤ) :
    round2 (rule_score issue_category report_count location_type days_open
      hours_until_sla_breach social_media_mentions description month) =
    rule_score issue_category report_count location_type days_open
      hours_until_sla_breach social_media_mentions description month := by
  rw [rule_score_eq_intCast, round2_intCast]

/-- Lower bound for association-list lookup with a bounded default. -/
theorem assocGet_lb {b : ℤ} {dflt : ℤ} (hd : b ≤ dflt) :
    ∀ (l : List (String × ℤ)), (∀ p ∈ l, b ≤ p.2) → ∀ k, b ≤ assocGet k dflt l
  | [], _, _ => hd
  | (a, v) :: t, h, k => by
    unfold assocGet
    split
    · exact h (a, v) (List.mem_cons_self _ _)
    · exact assocGet_lb hd t (fun p hp => h p (List.mem_cons_of_mem _ hp)) k

/-- Every category's base severity is at least 10. -/
theorem severityBase_ge (issue_category : String) : 10 ≤ severityBase issue_category := by
  unfold severityBase
  exact assocGet_lb (by decide) SEVERITY_MAP (by decide) issue_category

/-- Every location type scores at least 3. -/
theorem locationScore_ge (location_type : String) :
    3 ≤ assocGet location_type 4 locationScores := by
  exact assocGet_lb (by norm_num) locationScores (by decide) location_type

theorem timeScore_nonneg (days_open : ℤ) : 0 ≤ timeScore days_open := by
  unfold timeScore; split_ifs <;> norm_num

theorem slaScore_nonneg (hours : ℚ) : 0 ≤ slaScore hours := by
  unfold slaScore; split_ifs <;> norm_num

theorem socialScore_nonneg (m : ℤ) : 0 ≤ socialScore m := by
  unfold socialScore; split_ifs <;> norm_num

/-- The unclamped rule sum is nonnegative for nonnegative report counts. -/
theorem ruleScoreInt_nonneg (issue_category : String) (report_count : ℤ)
    (location_type : String) (days_open : ℤ) (hours_until_sla_breach : ℚ)
    (social_media_mentions : ℤ) (description : String)
    (hrc : 0 ≤ report_count) :
    0 ≤ ruleScoreInt issue_category report_count location_type days_open
      hours_until_sla_breach social_media_mentions description := by
  simp only [ruleScoreInt]
  have h1 : 10 ≤ severityBase issue_category := severityBase_ge issue_category
  have h2 : (0:ℤ) ≤ if safetyHit description then 5 else 0 := by split <;> norm_num
  have h3 : (10:ℤ) ≤ min 30 (severityBase issue_category +
      if safetyHit description then 5 else 0) := le_min (by norm_num) (by omega)
  have h4 : (0:ℤ) ≤ min 15 (report_count * 3) := le_min (by norm_num) (by omega)
  have h5 := locationScore_ge location_type
  have h6 := timeScore_nonneg days_open
  have h7 := slaScore_nonneg hours_until_sla_breach
  have h8 := socialScore_nonneg social_media_mentions
  omega

/-- The rule score always lies in [0, 100] when the report count is
nonnegative. -/
theorem rule_score_bounds (issue_category : String) (report_count : ℤ)
    (location_type : String) (days_open : ℤ) (hours_until_sla_breach : ℚ)
    (social_media_mentions : ℤ) (description : String) (month : ℤ)
    (hrc : 0 ≤ report_count) :
    0 ≤ rule_score issue_category report_count location_type days_open
        hours_until_sla_breach social_media_mentions description month ∧
      rule_score issue_category report_count location_type days_open
        hours_until_sla_breach social_media_mentions description month ≤ 100 := by
  unfold rule_score
  constructor
  · refine le_min (by norm_num) ?_
    have := ruleScoreInt_nonneg issue_category report_count location_type days_open
      hours_until_sla_breach social_media_mentions description hrc
    exact_mod_cast this
  · exact min_le_left _ _

/-- The label→score proxy map takes values in [0, 100]. -/
theorem mlScoreMap_bounds (lbl : PLabel) : 0 ≤ mlScoreMap lbl ∧ mlScoreMap lbl ≤ 100 := by
  cases lbl <;> constructor <;> norm_num [mlScoreMap]

/-- `bround` maps [0, 10000] into [0, 10000]. -/
theorem bround_bounds (s : ℚ) (h0 : 0 ≤ s) (h1 : s ≤ 10000) :
    0 ≤ bround s ∧ bround s ≤ 10000 := by
  have hf0 : 0 ≤ Int.floor s := Int.floor_nonneg.mpr h0
  have hfle : (Int.floor s : ℚ) ≤ s := Int.floor_le s
  have hfub : Int.floor s ≤ 10000 := by
    have : (Int.floor s : ℚ) ≤ 10000 := le_trans hfle h1
    exact_mod_cast this
  have hfub' : ¬ (s - (Int.floor s : ℚ) < 1 / 2) → Int.floor s + 1 ≤ 10000 := by
    intro h
    push_neg at h
    have h2 : (Int.floor s : ℚ) ≤ 10000 - 1 / 2 := by linarith
    have h3 : Int.floor s ≤ 9999 := by
      by_contra hcon
      push_neg at hcon
      have : (10000 : ℚ) ≤ (Int.floor s : ℚ) := by exact_mod_cast hcon
      linarith
    omega
  unfold bround
  split_ifs with hlt hgt heven
  · exact ⟨hf0, hfub⟩
  · exact ⟨by omega, hfub' hlt⟩
  · exact ⟨hf0, hfub⟩
  · exact ⟨by omega, hfub' hlt⟩

/-- `round2` maps [0, 100] into [0, 100]. -/
theorem round2_bounds (q : ℚ) (h0 : 0 ≤ q) (h1 : q ≤ 100) :
    0 ≤ round2 q ∧ round2 q ≤ 100 := by
  have hb := bround_bounds (q * 100) (by positivity) (by linarith)
  unfold round2
  constructor
  · have : (0 : ℚ) ≤ (bround (q * 100) : ℚ) := by exact_mod_cast hb.1
    positivity
  · have h2 : (bround (q * 100) : ℚ) ≤ 10000 := by exact_mod_cast hb.2
    rw [div_le_iff₀ (by norm_num : (0:ℚ) < 100)]
    linarith

/-! ### Claims about the hybrid priority scorer -/

/-- Claim C1: when the online model returns a prediction, a rule/model gap
of at most 20 points keeps the rule score (rounded to 2 decimals) and rule
label with source "hybrid"; a larger gap yields the 60/40 blend rounded to
2 decimals, with the label recomputed from the blended score and source
"hybrid".  The model-proxy scores are LOW=20, MEDIUM=50, HIGH=70,
CRITICAL=90. -/
theorem claim_C1_hybrid_blend (st : MLState) (issue_category description dept_id : String)
    (report_count : ℤ) (location_type : String) (days_open : ℤ)
    (hours_until_sla_breach : ℚ) (social_media_mentions : ℤ)
    (month ward_id day_of_week hour_of_day : ℤ) (lbl : PLabel)
    (h : predict st (build_feature_vector issue_category report_count days_open
      social_media_mentions hours_until_sla_breach month description dept_id
      ward_id day_of_week hour_of_day) = some lbl) :
    (|rule_score issue_category report_count location_type days_open
        hours_until_sla_breach social_media_mentions description month - mlScoreMap lbl| ≤ 20 →
      calculate_priority st issue_category description dept_id report_count location_type
        days_open hours_until_sla_breach social_media_mentions month ward_id day_of_week hour_of_day =
      (rule_score issue_category report_count location_type days_open
          hours_until_sla_breach social_media_mentions description month,
        scoreToLabel (rule_score issue_category report_count location_type days_open
          hours_until_sla_breach social_media_mentions description month),
        "hybrid")) ∧
    (20 < |rule_score issue_category report_count location_type days_open
        hours_until_sla_breach social_media_mentions description month - mlScoreMap lbl| →
      calculate_priority st issue_category description dept_id report_count location_type
        days_open hours_until_sla_breach social_media_mentions month ward_id day_of_week hour_of_day =
      (round2 (0.60 * rule_score issue_category report_count location_type days_open
          hours_until_sla_breach social_media_mentions description month + 0.40 * mlScoreMap lbl),
        scoreToLabel (round2 (0.60 * rule_score issue_category report_count location_type days_open
          hours_until_sla_breach social_media_mentions description month + 0.40 * mlScoreMap lbl)),
        "hybrid")) := by
  unfold calculate_priority
  rw [h]
  dsimp only
  constructor
  · intro hle
    rw [if_pos hle, round2_rule_score]
  · intro hgt
    rw [if_neg (not_le.mpr hgt)]

/-- Claim C1 witness: a concrete trained state whose classifier predicts
CRITICAL on a low-scoring garbage complaint, forcing the blend branch. -/
theorem claim_C1_hybrid_blend_witness :
    20 < |rule_score "garbage" 1 "unknown" 0 168 0 "x" 6 - mlScoreMap PLabel.CRITICAL| ∧
    calculate_priority ⟨some fun _ => some PLabel.CRITICAL, 50⟩ "garbage" "x" "D05"
      1 "unknown" 0 168 0 6 0 0 12 =
    (round2 (0.60 * rule_score "garbage" 1 "unknown" 0 168 0 "x" 6 +
        0.40 * mlScoreMap PLabel.CRITICAL),
      scoreToLabel (round2 (0.60 * rule_score "garbage" 1 "unknown" 0 168 0 "x" 6 +
        0.40 * mlScoreMap PLabel.CRITICAL)),
      "hybrid") := by
  have hrs : rule_score "garbage" 1 "unknown" 0 168 0 "x" 6 = 21 := by
    rw [rule_score_eq_intCast,
      show ruleScoreInt "garbage" 1 "unknown" 0 168 0 "x" = 21 from by decide]
    norm_num
  have hgap : 20 < |rule_score "garbage" 1 "unknown" 0 168 0 "x" 6 - mlScoreMap PLabel.CRITICAL| := by
    rw [hrs]
    norm_num [mlScoreMap]
  exact ⟨hgap,
    (claim_C1_hybrid_blend ⟨some fun _ => some PLabel.CRITICAL, 50⟩ "garbage" "x" "D05"
      1 "unknown" 0 168 0 6 0 0 12 PLabel.CRITICAL rfl).2 hgap⟩

/-- Claim C2: while fewer than 50 confirmed samples have been seen (or no
classifier is loaded), the model returns no prediction and the outcome is
the rounded rule score, the rule label, and source "rules". -/
theorem claim_C2_rules_only (st : MLState) (issue_category description dept_id : String)
    (report_count : ℤ) (location_type : String) (days_open : ℤ)
    (hours_until_sla_breach : ℚ) (social_media_mentions : ℤ)
    (month ward_id day_of_week hour_of_day : ℤ)
    (h : st.sample_count < 50 ∨ st.clf = none) :
    predict st (build_feature_vector issue_category report_count days_open
      social_media_mentions hours_until_sla_breach month description dept_id
      ward_id day_of_week hour_of_day) = none ∧
    calculate_priority st issue_category description dept_id report_count location_type
      days_open hours_until_sla_breach social_media_mentions month ward_id day_of_week hour_of_day =
    (rule_score issue_category report_count location_type days_open
        hours_until_sla_breach social_media_mentions description month,
      scoreToLabel (rule_score issue_category report_count location_type days_open
        hours_until_sla_breach social_media_mentions description month),
      "rules") := by
  have hp : predict st (build_feature_vector issue_category report_count days_open
      social_media_mentions hours_until_sla_breach month description dept_id
      ward_id day_of_week hour_of_day) = none :=
    predict_eq_none st _ (h.symm.imp id id)
  refine ⟨hp, ?_⟩
  rw [calcPriority_rules_branch st issue_category description dept_id report_count
    location_type days_open hours_until_sla_breach social_media_mentions month
    ward_id day_of_week hour_of_day hp, round2_rule_score]

/-- Claim C2 witness: an untrained state (no classifier, zero samples). -/
theorem claim_C2_rules_only_witness :
    (⟨none, 0⟩ : MLState).sample_count < 50 ∧
    calculate_priority ⟨none, 0⟩ "garbage" "x" "D05" 1 "unknown" 0 168 0 6 0 0 12 =
    (21, PLabel.LOW, "rules") := by
  have h := (claim_C2_rules_only ⟨none, 0⟩ "garbage" "x" "D05" 1 "unknown" 0 168 0 6 0 0 12
    (Or.inl (by norm_num))).2
  have hrs : rule_score "garbage" 1 "unknown" 0 168 0 "x" 6 = 21 := by
    rw [rule_score_eq_intCast,
      show ruleScoreInt "garbage" 1 "unknown" 0 168 0 "x" = 21 from by decide]
    norm_num
  refine ⟨by norm_num, ?_⟩
  rw [h, hrs]
  have : scoreToLabel 21 = PLabel.LOW := by rw [scoreToLabel]; norm_num
  rw [this]

/-- Evaluation of the spec's end-to-end scenario with an untrained model:
base 20 + safety bonus 5 gives severity min(30, 25) = 25 (not 30), so the
total is 25 + 24 + 5 + 8 + 7 = 69. -/
theorem c4_eval :
    calculate_priority ⟨none, 0⟩ "large_pothole" c4_description "D01"
      5 "school_vicinity" 2 20 60 6 0 0 12 = (69, PLabel.HIGH, "rules") := by
  have hp : predict ⟨none, 0⟩ (build_feature_vector "large_pothole" 5 2 60 20 6
      c4_description "D01" 0 0 12) = none := rfl
  rw [calcPriority_rules_branch ⟨none, 0⟩ "large_pothole" c4_description "D01"
    5 "school_vicinity" 2 20 60 6 0 0 12 hp]
  have hrs : rule_score "large_pothole" 5 "school_vicinity" 2 20 60 c4_description 6 = 69 := by
    rw [rule_score_eq_intCast,
      show ruleScoreInt "large_pothole" 5 "school_vicinity" 2 20 60 c4_description = 69 from
        by decide]
    norm_num
  rw [hrs]
  have h69 : round2 69 = 69 := by
    have := round2_intCast 69
    norm_num at this
    exact this
  rw [h69]
  have hlbl : scoreToLabel 69 = PLabel.HIGH := by rw [scoreToLabel]; norm_num
  rw [hlbl]

/-- Claim C4 (counterexample): on the spec's end-to-end pothole scenario the
rule engine produces score 69, not the claimed 74 (the spec computes
min(30, 20+5) as 30 instead of 25). -/
theorem claim_C4_counterexample :
    calculate_priority ⟨none, 0⟩ "large_pothole" c4_description "D01"
      5 "school_vicinity" 2 20 60 6 0 0 12 = (69, PLabel.HIGH, "rules") ∧
    (69 : ℚ) ≠ 74 :=
  ⟨c4_eval, by norm_num⟩

/-- Claim C4 (amended): for the spec scenario (description "Large pothole on
Anna Salai causing accidents near school, multiple people reported",
category large_pothole, report_count 5, school_vicinity, 2 days open, 20
hours to SLA breach, 60 social mentions, untrained model) the rule engine
produces score 69, label HIGH, source "rules". -/
theorem claim_C4_rule_scenario :
    calculate_priority ⟨none, 0⟩ "large_pothole" c4_description "D01"
      5 "school_vicinity" 2 20 60 6 0 0 12 = (69, PLabel.HIGH, "rules") :=
  c4_eval

/-- Claim C8: for valid inputs (nonnegative report count, days open and
social-media mentions) the returned score is in [0, 100] and the returned
label is the threshold function of the returned score; the thresholds map
80.0 to CRITICAL and 79.99 to HIGH. -/
theorem claim_C8_bounds_and_label (st : MLState) (issue_category description dept_id : String)
    (report_count : ℤ) (location_type : String) (days_open : ℤ)
    (hours_until_sla_breach : ℚ) (social_media_mentions : ℤ)
    (month ward_id day_of_week hour_of_day : ℤ)
    (h1 : 0 ≤ report_count) (h2 : 0 ≤ days_open) (h3 : 0 ≤ social_media_mentions) :
    (0 ≤ (calculate_priority st issue_category description dept_id report_count location_type
        days_open hours_until_sla_breach social_media_mentions month ward_id day_of_week
        hour_of_day).1 ∧
      (calculate_priority st issue_category description dept_id report_count location_type
        days_open hours_until_sla_breach social_media_mentions month ward_id day_of_week
        hour_of_day).1 ≤ 100 ∧
      (calculate_priority st issue_category description dept_id report_count location_type
        days_open hours_until_sla_breach social_media_mentions month ward_id day_of_week
        hour_of_day).2.1 =
        scoreToLabel (calculate_priority st issue_category description dept_id report_count
          location_type days_open hours_until_sla_breach social_media_mentions month ward_id
          day_of_week hour_of_day).1) ∧
    scoreToLabel 80 = PLabel.CRITICAL ∧ scoreToLabel 79.99 = PLabel.HIGH := by
  have hrb := rule_score_bounds issue_category report_count location_type days_open
    hours_until_sla_breach social_media_mentions description month h1
  have ht1 : scoreToLabel 80 = PLabel.CRITICAL := by rw [scoreToLabel]; norm_num
  have ht2 : scoreToLabel (79.99 : ℚ) = PLabel.HIGH := by rw [scoreToLabel]; norm_num
  refine ⟨?_, ht1, ht2⟩
  unfold calculate_priority
  cases hp : predict st (build_feature_vector issue_category report_count days_open
      social_media_mentions hours_until_sla_breach month description dept_id
      ward_id day_of_week hour_of_day) with
  | none =>
    dsimp only
    rw [round2_rule_score]
    exact ⟨hrb.1, hrb.2, rfl⟩
  | some lbl =>
    dsimp only
    by_cases hle : |rule_score issue_category report_count location_type days_open
        hours_until_sla_breach social_media_mentions description month - mlScoreMap lbl| ≤ 20
    · rw [if_pos hle]
      dsimp only
      rw [round2_rule_score]
      exact ⟨hrb.1, hrb.2, rfl⟩
    · rw [if_neg hle]
      dsimp only
      have hm := mlScoreMap_bounds lbl
      have hb0 : 0 ≤ 0.60 * rule_score issue_category report_count location_type days_open
          hours_until_sla_breach social_media_mentions description month +
          0.40 * mlScoreMap lbl := by
        have := hrb.1
        have := hm.1
        linarith
      have hb1 : 0.60 * rule_score issue_category report_count location_type days_open
          hours_until_sla_breach social_media_mentions description month +
          0.40 * mlScoreMap lbl ≤ 100 := by
        have := hrb.2
        have := hm.2
        linarith
      have hr := round2_bounds _ hb0 hb1
      exact ⟨hr.1, hr.2, rfl⟩

/-- Claim C8 witness: the bounds and label consistency instantiated on the
end-to-end pothole scenario. -/
theorem claim_C8_bounds_and_label_witness :
    (0 ≤ (calculate_priority ⟨none, 0⟩ "large_pothole" c4_description "D01"
        5 "school_vicinity" 2 20 60 6 0 0 12).1 ∧
      (calculate_priority ⟨none, 0⟩ "large_pothole" c4_description "D01"
        5 "school_vicinity" 2 20 60 6 0 0 12).1 ≤ 100 ∧
      (calculate_priority ⟨none, 0⟩ "large_pothole" c4_description "D01"
        5 "school_vicinity" 2 20 60 6 0 0 12).2.1 =
        scoreToLabel (calculate_priority ⟨none, 0⟩ "large_pothole" c4_description "D01"
          5 "school_vicinity" 2 20 60 6 0 0 12).1) ∧
    scoreToLabel 80 = PLabel.CRITICAL ∧ scoreToLabel 79.99 = PLabel.HIGH :=
  claim_C8_bounds_and_label ⟨none, 0⟩ "large_pothole" c4_description "D01"
    5 "school_vicinity" 2 20 60 6 0 0 12 (by norm_num) (by norm_num) (by norm_num)

/-! ### Helper lemmas for the keyword-fallback fold -/

/-- The fold never decreases the running best score. -/
theorem pickBest_acc_le (l : List (String × ℕ)) :
    ∀ acc : String × ℕ, acc.2 ≤ (pickBest acc l).2 := by
  induction l with
  | nil => intro acc; exact le_refl _
  | cons q t ih =>
    intro acc
    simp only [pickBest]
    rcases Nat.lt_or_ge acc.2 q.2 with h | h
    · rw [if_pos h]
      exact le_trans (le_of_lt h) (ih _)
    · rw [if_neg (by omega)]
      exact ih _

/-- The final best score dominates every listed score. -/
theorem pickBest_le (l : List (String × ℕ)) :
    ∀ (acc : String × ℕ), ∀ p ∈ l, p.2 ≤ (pickBest acc l).2 := by
  induction l with
  | nil => intro acc p hp; cases hp
  | cons q t ih =>
    intro acc p hp
    simp only [pickBest]
    rcases List.mem_cons.mp hp with rfl | hp'
    · refine le_trans ?_ (pickBest_acc_le t _)
      rcases Nat.lt_or_ge acc.2 p.2 with h | h
      · rw [if_pos h]
      · rw [if_neg (by omega)]
        omega
    · exact ih _ p hp'

/-- The fold's result is either the initial accumulator or a listed pair. -/
theorem pickBest_mem (l : List (String × ℕ)) :
    ∀ acc : String × ℕ, pickBest acc l = acc ∨ pickBest acc l ∈ l := by
  induction l with
  | nil => intro acc; exact Or.inl rfl
  | cons q t ih =>
    intro acc
    simp only [pickBest]
    rcases Nat.lt_or_ge acc.2 q.2 with h | h
    · rw [if_pos h]
      rcases ih q with h1 | h1
      · exact Or.inr (by rw [h1]; exact List.mem_cons_self _ _)
      · exact Or.inr (List.mem_cons_of_mem _ h1)
    · rw [if_neg (by omega)]
      rcases ih acc with h1 | h1
      · exact Or.inl h1
      · exact Or.inr (List.mem_cons_of_mem _ h1)

/-- If no listed score beats the accumulator, the fold keeps it (strict
comparison in the source). -/
theorem pickBest_stable (l : List (String × ℕ)) :
    ∀ acc : String × ℕ, (∀ p ∈ l, p.2 ≤ acc.2) → pickBest acc l = acc := by
  induction l with
  | nil => intro acc _; rfl
  | cons q t ih =>
    intro acc h
    simp only [pickBest]
    rw [if_neg (by have := h q (List.mem_cons_self _ _); omega)]
    exact ih acc (fun p hp => h p (List.mem_cons_of_mem _ hp))

/-- With a zero accumulator, a unique positively-scoring entry wins the
fold. -/
theorem pickBest_unique (l : List (String × ℕ)) :
    ∀ (acc d : String × ℕ), acc.2 = 0 → d ∈ l → 0 < d.2 →
      (∀ p ∈ l, p ≠ d → p.2 = 0) → pickBest acc l = d := by
  induction l with
  | nil => intro acc d _ hd _ _; cases hd
  | cons q t ih =>
    intro acc d hacc hd hpos hz
    by_cases hqd : q = d
    · subst hqd
      simp only [pickBest]
      rw [if_pos (by omega)]
      apply pickBest_stable
      intro p hp
      by_cases hpq : p = q
      · subst hpq; exact le_refl _
      · rw [hz p (List.mem_cons_of_mem _ hp) hpq]
        exact Nat.zero_le _
    · have hq0 : q.2 = 0 := hz q (List.mem_cons_self _ _) hqd
      have hd' : d ∈ t := by
        rcases List.mem_cons.mp hd with h | h
        · exact absurd h.symm hqd
        · exact h
      simp only [pickBest]
      rw [if_neg (by omega)]
      exact ih acc d hacc hd' hpos fun p hp hpd => hz p (List.mem_cons_of_mem _ hp) hpd

/-- `bestMatch` on a description whose keyword hits are concentrated in a
single department. -/
theorem bestMatch_unique (text_lower : List Char) (d : Department)
    (hd : d ∈ DEPARTMENT_CATALOGUE) (hpos : 0 < deptScore d text_lower)
    (hz : ∀ d' ∈ DEPARTMENT_CATALOGUE, d' ≠ d → deptScore d' text_lower = 0) :
    bestMatch text_lower = (d.id, deptScore d text_lower) := by
  unfold bestMatch
  apply pickBest_unique _ _ _ rfl (List.mem_map_of_mem _ hd) hpos
  intro p hp hpd
  rcases List.mem_map.mp hp with ⟨d', hd', rfl⟩
  by_cases h : d' = d
  · subst h
    exact absurd rfl hpd
  · exact hz d' hd' h

/-! ### Claims about the text classifier -/

/-- Claim C3 (counterexample): the language-model path copies the
requires-human-review flag verbatim from the backend's JSON, so a reply
with confidence 0.5 and review flag false yields a ClassificationResult
violating the claimed invariant. -/
theorem claim_C3_counterexample :
    (classify_complaint (some c3_llm_reply) "Pothole on main road").confidence < 0.75 ∧
    (classify_complaint (some c3_llm_reply) "Pothole on main road").requires_human_review
      = false := by
  constructor
  · show (0.5 : ℚ) < 0.75
    norm_num
  · rfl

/-- Claim C3 (amended): the keyword-fallback path always sets
requires_human_review to true (so the invariant holds there); the
language-model path returns the backend's requires_human_review field
(defaulting to false) without enforcing any relation to confidence. -/
theorem claim_C3_review_flag :
    (∀ description : String,
      (keyword_fallback description).requires_human_review = true) ∧
    (∀ (data : LLMClassification) (description : String),
      (classify_complaint (some data) description).requires_human_review =
        data.requires_human_review.getD false) :=
  ⟨fun _ => rfl, fun _ _ => rfl⟩

/-- Claim C5 (counterexample): "road construction" scores 1 for both D01
and D02 — a tie at the maximum — yet D01 is selected, so ties are not
resolved in favor of the default department D05. -/
theorem claim_C5_counterexample :
    (DEPARTMENT_CATALOGUE.map fun d => deptScore d (lowerStr "road construction")) =
      [1, 1, 0, 0, 0, 0, 0, 0, 0, 0, 0, 0, 0, 0] ∧
    (keyword_fallback "road construction").dept_id = "D01" ∧
    ("D01" : String) ≠ "D05" := by
  refine ⟨by decide, ?_, by decide⟩
  show (bestMatch (lowerStr "road construction")).1 = "D01"
  decide

/-- Claim C5 (amended): the keyword fallback selects a department whose
keyword list attains the maximum number of case-insensitive substring hits;
the fixed default D05 is the result when no keyword matches at all (a tie
between positively scoring departments instead goes to the one iterated
first, as the counterexample shows); and for any description containing at
least one keyword unique to a single department and no other department's
keywords, that department is selected with confidence 0.6 (≥ 0.6) and
needs_clarification false. -/
theorem claim_C5_keyword_fallback :
    (∀ text : String, ∃ d, d ∈ DEPARTMENT_CATALOGUE ∧
        d.id = (keyword_fallback text).dept_id ∧
        ∀ d' ∈ DEPARTMENT_CATALOGUE,
          deptScore d' (lowerStr text) ≤ deptScore d (lowerStr text)) ∧
    (∀ text : String, (∀ d ∈ DEPARTMENT_CATALOGUE, deptScore d (lowerStr text) = 0) →
        (keyword_fallback text).dept_id = "D05") ∧
    (∀ (text : String) (d : Department), d ∈ DEPARTMENT_CATALOGUE →
        0 < deptScore d (lowerStr text) →
        (∀ d' ∈ DEPARTMENT_CATALOGUE, d' ≠ d → deptScore d' (lowerStr text) = 0) →
        (keyword_fallback text).dept_id = d.id ∧
        (keyword_fallback text).confidence = 0.6 ∧
        (keyword_fallback text).needs_clarification = false) := by
  refine ⟨?_, ?_, ?_⟩
  · intro text
    rcases pickBest_mem (DEPARTMENT_CATALOGUE.map fun d => (d.id, deptScore d (lowerStr text)))
        ("D05", 0) with hcase | hcase
    · have hall : ∀ d' ∈ DEPARTMENT_CATALOGUE, deptScore d' (lowerStr text) = 0 := by
        intro d' hd'
        have hle := pickBest_le _ ("D05", 0) (d'.id, deptScore d' (lowerStr text))
          (List.mem_map_of_mem (fun d => (d.id, deptScore d (lowerStr text))) hd')
        rw [hcase] at hle
        omega
      obtain ⟨d5, hd5mem, hd5id⟩ : ∃ d5, d5 ∈ DEPARTMENT_CATALOGUE ∧ d5.id = "D05" :=
        ⟨⟨"D05", "Solid Waste Management",
          ["garbage", "waste", "bin", "collection", "dumping", "litter", "trash"]⟩,
          by decide, rfl⟩
      refine ⟨d5, hd5mem, ?_, ?_⟩
      · show d5.id = (bestMatch (lowerStr text)).1
        unfold bestMatch
        rw [hcase]
        exact hd5id
      · intro d' hd'
        rw [hall d' hd']
        exact Nat.zero_le _
    · rcases List.mem_map.mp hcase with ⟨d, hdmem, hdeq⟩
      refine ⟨d, hdmem, ?_, ?_⟩
      · show d.id = (bestMatch (lowerStr text)).1
        unfold bestMatch
        rw [← hdeq]
      · intro d' hd'
        have hle := pickBest_le _ ("D05", 0) (d'.id, deptScore d' (lowerStr text))
          (List.mem_map_of_mem (fun d => (d.id, deptScore d (lowerStr text))) hd')
        rw [← hdeq] at hle
        exact hle
  · intro text hz
    have hstable : bestMatch (lowerStr text) = ("D05", 0) := by
      unfold bestMatch
      apply pickBest_stable
      intro p hp
      rcases List.mem_map.mp hp with ⟨d', hd', rfl⟩
      show deptScore d' (lowerStr text) ≤ 0
      exact le_of_eq (hz d' hd')
    show (bestMatch (lowerStr text)).1 = "D05"
    rw [hstable]
  · intro text d hdmem hpos hz
    have hb := bestMatch_unique (lowerStr text) d hdmem hpos hz
    refine ⟨?_, ?_, ?_⟩
    · show (bestMatch (lowerStr text)).1 = d.id
      rw [hb]
    · show (if 0 < (bestMatch (lowerStr text)).2 then (0.6 : ℚ) else 0.4) = 0.6
      rw [hb]
      exact if_pos hpos
    · show decide ((bestMatch (lowerStr text)).2 = 0) = false
      rw [hb]
      exact decide_eq_false (by omega)

/-- Claim C5 witness: "pension" is a keyword unique to D12 (Social
Welfare), which the fallback selects with confidence 0.6 and no
clarification request. -/
theorem claim_C5_keyword_fallback_witness :
    (keyword_fallback "pension").dept_id = "D12" ∧
    (keyword_fallback "pension").confidence = 0.6 ∧
    (keyword_fallback "pension").needs_clarification = false :=
  claim_C5_keyword_fallback.2.2 "pension"
    ⟨"D12", "Social Welfare", ["pension", "welfare", "disability", "ration", "subsidy"]⟩
    (by decide) (by decide) (by decide)

/-- Claim C6: when no department keyword occurs in the description, the
keyword fallback asks for clarification with the generic question, caps
confidence at 0.6 (it is 0.4), and forces human review. -/
theorem claim_C6_no_keyword_hits (text : String)
    (h : ∀ d ∈ DEPARTMENT_CATALOGUE, ∀ kw ∈ d.keywords,
      containsSub kw.data (lowerStr text) = false) :
    (keyword_fallback text).needs_clarification = true ∧
    (keyword_fallback text).clarification_question =
      some "Could you describe the issue in more detail?" ∧
    (keyword_fallback text).confidence ≤ 0.6 ∧
    (keyword_fallback text).requires_human_review = true := by
  have hz : ∀ d ∈ DEPARTMENT_CATALOGUE, deptScore d (lowerStr text) = 0 := by
    intro d hd
    unfold deptScore
    rw [List.length_eq_zero, List.filter_eq_nil_iff]
    intro kw hkw
    simp [h d hd kw hkw]
  have hstable : bestMatch (lowerStr text) = ("D05", 0) := by
    unfold bestMatch
    apply pickBest_stable
    intro p hp
    rcases List.mem_map.mp hp with ⟨d', hd', rfl⟩
    show deptScore d' (lowerStr text) ≤ 0
    exact le_of_eq (hz d' hd')
  refine ⟨?_, ?_, ?_, rfl⟩
  · show decide ((bestMatch (lowerStr text)).2 = 0) = true
    rw [hstable]
    rfl
  · show (if (bestMatch (lowerStr text)).2 = 0 then
        some "Could you describe the issue in more detail?" else none) =
      some "Could you describe the issue in more detail?"
    rw [hstable]
    rfl
  · show (if 0 < (bestMatch (lowerStr text)).2 then (0.6 : ℚ) else 0.4) ≤ 0.6
    rw [hstable]
    norm_num

/-- Claim C6 witness: the description "zzz" contains no catalogue
keyword. -/
theorem claim_C6_no_keyword_hits_witness :
    (keyword_fallback "zzz").needs_clarification = true ∧
    (keyword_fallback "zzz").clarification_question =
      some "Could you describe the issue in more detail?" ∧
    (keyword_fallback "zzz").confidence ≤ 0.6 ∧
    (keyword_fallback "zzz").requires_human_review = true :=
  claim_C6_no_keyword_hits "zzz" (by decide)

/-! ### Claims about memory, forecasting and the orchestrator -/

/-- Claim C7: upserting onto an existing record increments the occurrence
count from n−1 to n and merges severity as (prev_avg × (n−1) + new_score) / n
(stated with m = n−1 = the existing count); in particular two insertions
into an initially absent record give count 2 and the arithmetic mean of the
two scores. -/
theorem claim_C7_memory_upsert :
    (∀ (e : IssueMemoryRecord) (w : ℤ) (cat dep desc tid : String) (s : ℚ) (mo yr : ℤ),
      (upsertMemory (some e) w cat dep s desc tid mo yr).occurrence_count =
        e.occurrence_count + 1 ∧
      (upsertMemory (some e) w cat dep s desc tid mo yr).avg_severity_score =
        (e.avg_severity_score * (e.occurrence_count : ℚ) + s) /
          ((e.occurrence_count : ℚ) + 1)) ∧
    (∀ (w : ℤ) (cat dep d1 t1 d2 t2 : String) (s1 s2 : ℚ) (mo yr : ℤ),
      (upsertMemory (some (upsertMemory none w cat dep s1 d1 t1 mo yr))
          w cat dep s2 d2 t2 mo yr).occurrence_count = 2 ∧
      (upsertMemory (some (upsertMemory none w cat dep s1 d1 t1 mo yr))
          w cat dep s2 d2 t2 mo yr).avg_severity_score = (s1 + s2) / 2) := by
  constructor
  · intro e w cat dep desc tid s mo yr
    refine ⟨rfl, ?_⟩
    show (e.avg_severity_score * (((e.occurrence_count + 1 : ℕ) : ℚ) - 1) + s) /
        ((e.occurrence_count + 1 : ℕ) : ℚ) =
      (e.avg_severity_score * (e.occurrence_count : ℚ) + s) / ((e.occurrence_count : ℚ) + 1)
    push_cast
    ring_nf
  · intro w cat dep d1 t1 d2 t2 s1 s2 mo yr
    refine ⟨rfl, ?_⟩
    show (s1 * (((1 + 1 : ℕ) : ℚ) - 1) + s2) / ((1 + 1 : ℕ) : ℚ) = (s1 + s2) / 2
    push_cast
    ring_nf

/-- Claim C9: a (ward, category) pair with no cached model and fewer than
90 dated historical tickets yields no spike prediction — predict_spike
returns `none` (and leaves the model cache unchanged) instead of raising. -/
theorem claim_C9_insufficient_history (models : List (String × CacheEntry))
    (last_trained : List (String × ℤ)) (now : ℤ) (prophetInstalled : Bool)
    (fitOracle : List (ℤ × ℕ) → Option ProphetModel) (tickets : List TicketDoc)
    (ward_id : ℤ) (category : String) (horizon_days : ℕ)
    (hcache : List.lookup (modelKey ward_id category) models = none)
    (hdata : (tickets.filterMap TicketDoc.created_at).length < MIN_DATA_POINTS) :
    (predict_spike models last_trained now prophetInstalled fitOracle tickets
        ward_id category horizon_days).1 = none ∧
    (predict_spike models last_trained now prophetInstalled fitOracle tickets
        ward_id category horizon_days).2 = models := by
  have hload : load_daily_counts tickets = none := by
    simp [load_daily_counts, hdata]
  have htrain : trainModel prophetInstalled fitOracle tickets = none := by
    cases prophetInstalled
    · rfl
    · simp [trainModel, hload]
  constructor <;> simp [predict_spike, hcache, htrain]

/-- Claim C9 witness: an empty cache and a single dated ticket. -/
theorem claim_C9_insufficient_history_witness :
    (predict_spike [] [] 0 true (fun _ => none) [⟨some 0⟩] 1 "flooding" 30).1 = none ∧
    (predict_spike [] [] 0 true (fun _ => none) [⟨some 0⟩] 1 "flooding" 30).2 = [] :=
  claim_C9_insufficient_history [] [] 0 true (fun _ => none) [⟨some 0⟩] 1 "flooding" 30
    rfl (by decide)

/-- Claim C10: a pipeline run with ward 0 skips the memory branch exactly
like a run with no ward: the store is untouched, the seasonal alert is
`none`, and the two runs are indistinguishable. -/
theorem claim_C10_ward_zero (classifier_llm : Option LLMClassification)
    (routing_llm : Option LLMRouting) (ml : MLState) (suggestions : List String)
    (memStore : List IssueMemoryRecord) (alertGen : ℤ → String → ℤ → ℕ → ℚ → String)
    (nowMonth nowYear : ℤ) (description : String)
    (location_text photo_url : Option String) (ticket_id : Option String) :
    (run_pipeline classifier_llm routing_llm ml suggestions memStore alertGen nowMonth
        nowYear description location_text photo_url (some 0) ticket_id).2 = memStore ∧
    (run_pipeline classifier_llm routing_llm ml suggestions memStore alertGen nowMonth
        nowYear description location_text photo_url (some 0) ticket_id).1.seasonal_alert
      = none ∧
    (run_pipeline classifier_llm routing_llm ml suggestions memStore alertGen nowMonth
        nowYear description location_text photo_url none ticket_id).2 = memStore ∧
    run_pipeline classifier_llm routing_llm ml suggestions memStore alertGen nowMonth
        nowYear description location_text photo_url (some 0) ticket_id =
      run_pipeline classifier_llm routing_llm ml suggestions memStore alertGen nowMonth
        nowYear description location_text photo_url none ticket_id :=
  ⟨rfl, rfl, rfl, rfl⟩

end JanVedha
